import Mathlib

/-!
Verification of the credential lifecycle and RPC dispatch logic of the
google-docs-mcp bridge server (`src/server.py`).

The server is embedded shallowly:

* JSON values are modelled by the inductive `JVal`.
* The single-record token file `./tokens/user_token.json` is modelled by a
  `Option Credential` store value threaded through the operations.
* Remote, effectful collaborators (the OAuth authorization server reached by
  `creds.refresh`, and the Docs/Drive HTTP endpoints reached by `.execute()`)
  are modelled as function-valued fields of an environment `Env`; each is an
  `Except String _` so that a remote failure (a raised library exception,
  carrying a message) is representable.
* Raised Python exceptions are values of `Err`: `HTTPException(status, detail)`
  becomes `Err.http`, `KeyError(key)` becomes `Err.keyErr`, and any other
  exception becomes `Err.exc message`.
* Each HTTP handler / adapter operation becomes a pure function returning its
  result (`Except Err JVal`), the list of remote document-API calls it issued,
  and the new store contents.
-/

/-- A JSON value, as passed in RPC params and returned by the remote API. -/
inductive JVal where
  | null
  | bool (b : Bool)
  | num (n : Int)
  | str (s : String)
  | arr (xs : List JVal)
  | obj (fields : List (String × JVal))
deriving Repr

/-- Python `v == s` for a JSON value against a string literal: true exactly when
`v` is that string. -/
def JVal.isStr (v : JVal) (s : String) : Bool :=
  match v with
  | .str t => t = s
  | _ => false

/-- Python `dict.get(k, d)` on a JSON object (used as `doc.get("title")` etc.). -/
def JVal.getD (v : JVal) (k : String) (d : JVal) : JVal :=
  match v with
  | .obj fields =>
    match fields.lookup k with
    | some x => x
    | none => d
  | _ => d

/-- The OAuth credential record persisted in `tokens/user_token.json`
(`google.oauth2.credentials.Credentials`): access token, optional refresh
token, optional expiry timestamp, scopes. -/
structure Credential where
  token : String
  refresh_token : Option String
  expiry : Option Nat
  scopes : List String
deriving Repr, DecidableEq

/-- `creds.expired` of the google-auth library: true when an expiry is set and
it is not after the current time (clock skew folded into `now`). -/
def Credential.expired (c : Credential) (now : Nat) : Bool :=
  match c.expiry with
  | none => false
  | some e => e ≤ now

/-- Python truthiness of `creds.refresh_token`: a present, non-empty string. -/
def Credential.hasRefreshToken (c : Credential) : Bool :=
  match c.refresh_token with
  | none => false
  | some s => s ≠ ""

/-- A raised exception: `HTTPException(status, detail)`, `KeyError(key)`, or any
other exception with its message. -/
inductive Err where
  | http (status : Nat) (detail : String)
  | keyErr (key : String)
  | exc (msg : String)
deriving Repr, DecidableEq

/-- `load_creds` (src/server.py:69-95): load the stored credential, refresh it
when expired and refreshable, delete the store on refresh failure.

Arguments: the store contents, the current time, and the authorization
server's refresh behaviour. Returns the outcome together with the new store
contents. -/
def load_creds (store : Option Credential) (now : Nat)
    (refresh : Credential → Except String Credential) :
    Except Err Credential × Option Credential :=
  match store with
  | none => (.error (.http 401 "User not authorized. Visit /authorize"), none)
  | some creds =>
    if creds.expired now && creds.hasRefreshToken then
      match refresh creds with
      | .ok creds' => (.ok creds', some creds')
      | .error e =>
        (.error (.http 401 ("Failed to refresh credentials: " ++ e)), none)
    else
      (.ok creds, some creds)

/-- A call issued to the remote Docs/Drive API (`.execute()` sites). Python
passes RPC params through without type checks, so `documentId` carries an
arbitrary JSON value. -/
inductive RemoteCall where
  | filesList (q : String) (pageSize : Nat) (fields : String)
  | documentsGet (documentId : JVal)
  | batchUpdate (documentId : JVal) (requests : List JVal)
deriving Repr

/-- The server's world: the token store, the clock, and the behaviour of the
remote collaborators (authorization server and Docs/Drive endpoints). Each
remote call may fail with a raised library exception carrying a message. -/
structure Env where
  store : Option Credential
  now : Nat
  refresh : Credential → Except String Credential
  filesList : Except String JVal
  documentsGet : JVal → Except String JVal
  batchUpdate : JVal → List JVal → Except String JVal

/-- Outcome of one adapter operation: its result or raised exception, the
remote document-API calls it issued (in order), and the new store contents. -/
structure OpOut where
  result : Except Err JVal
  calls : List RemoteCall
  store : Option Credential
deriving Repr

/-- `list_docs` (src/server.py:134-139). -/
def list_docs (env : Env) : OpOut :=
  match load_creds env.store env.now env.refresh with
  | (.error e, st) => ⟨.error e, [], st⟩
  | (.ok _, st) =>
    let q := "mimeType='application/vnd.google-apps.document' and trashed=false"
    let call := RemoteCall.filesList q 50 "files(id,name)"
    match env.filesList with
    | .error m => ⟨.error (.exc m), [call], st⟩
    | .ok files => ⟨.ok (files.getD "files" (.arr [])), [call], st⟩

/-- `get_doc` (src/server.py:142-147). -/
def get_doc (env : Env) (document_id : JVal) : OpOut :=
  match load_creds env.store env.now env.refresh with
  | (.error e, st) => ⟨.error e, [], st⟩
  | (.ok _, st) =>
    let call := RemoteCall.documentsGet document_id
    match env.documentsGet document_id with
    | .error m => ⟨.error (.exc m), [call], st⟩
    | .ok doc =>
      ⟨.ok (.obj [("title", doc.getD "title" .null), ("body", doc.getD "body" .null)]),
        [call], st⟩

/-- `insert_text` (src/server.py:150-155). -/
def insert_text (env : Env) (document_id : JVal) (text : JVal) (index : JVal) : OpOut :=
  match load_creds env.store env.now env.refresh with
  | (.error e, st) => ⟨.error e, [], st⟩
  | (.ok _, st) =>
    let requests : List JVal :=
      [.obj [("insertText", .obj [("location", .obj [("index", index)]), ("text", text)])]]
    let call := RemoteCall.batchUpdate document_id requests
    match env.batchUpdate document_id requests with
    | .error m => ⟨.error (.exc m), [call], st⟩
    | .ok resp =>
      ⟨.ok (.obj [("status", .str "ok"), ("updates", resp.getD "replies" .null)]), [call], st⟩

/-- The `updateTextStyle` request built by `format_range` for bold/italic
(src/server.py:187-195): `fields` joins exactly the style's keys. -/
def textStyleRequest (start_index end_index : JVal) (style : List (String × JVal)) : JVal :=
  .obj [("updateTextStyle", .obj
    [("range", .obj [("startIndex", start_index), ("endIndex", end_index)]),
     ("textStyle", .obj style),
     ("fields", .str (String.intercalate "," (style.map Prod.fst)))])]

/-- The `updateParagraphStyle` request built by `format_range` for heading1
(src/server.py:172-180). -/
def paragraphStyleRequest (start_index end_index : JVal) : JVal :=
  .obj [("updateParagraphStyle", .obj
    [("range", .obj [("startIndex", start_index), ("endIndex", end_index)]),
     ("paragraphStyle", .obj [("namedStyleType", .str "HEADING_1")]),
     ("fields", .str "namedStyleType")])]

/-- Shared tail of `format_range`: issue a single batch update and wrap the
replies (src/server.py:181-182 and 196-197). -/
def batchUpdateAndWrap (env : Env) (st : Option Credential)
    (document_id : JVal) (requests : List JVal) : OpOut :=
  let call := RemoteCall.batchUpdate document_id requests
  match env.batchUpdate document_id requests with
  | .error m => ⟨.error (.exc m), [call], st⟩
  | .ok resp =>
    ⟨.ok (.obj [("status", .str "ok"), ("updates", resp.getD "replies" .null)]), [call], st⟩

/-- `format_range` (src/server.py:158-197): credentials first, then the
bold / italic / heading1 branches; any other format raises a plain
`Exception("unsupported format")`. -/
def format_range (env : Env) (document_id : JVal)
    (start_index end_index : JVal) (format : JVal) : OpOut :=
  match load_creds env.store env.now env.refresh with
  | (.error e, st) => ⟨.error e, [], st⟩
  | (.ok _, st) =>
    if format.isStr "bold" then
      batchUpdateAndWrap env st document_id
        [textStyleRequest start_index end_index [("bold", .bool true)]]
    else if format.isStr "italic" then
      batchUpdateAndWrap env st document_id
        [textStyleRequest start_index end_index [("italic", .bool true)]]
    else if format.isStr "heading1" then
      batchUpdateAndWrap env st document_id
        [paragraphStyleRequest start_index end_index]
    else
      ⟨.error (.exc "unsupported format"), [], st⟩

/-- An inbound `POST /mcp` body, already JSON-parsed: `body.get("method")`
(absent → `none`; a non-string method compares unequal to every dispatch-table
entry exactly as an unknown string does), `body.get("params", {}) or {}` as an
association list, and `body.get("id")`. -/
structure RpcRequest where
  method : Option String
  params : List (String × JVal)
  id : JVal

/-- The JSON-RPC-shaped HTTP response produced by `mcp_endpoint`: status code,
echoed id, and either a `result` value or an `error.message` string. -/
structure RpcResponse where
  status : Nat
  id : JVal
  result : Option JVal
  errorMsg : Option String
deriving Repr

/-- Python `str(method)` as interpolated into `f"Unknown method {method}"`:
the string itself, or `None` when the key was absent. -/
def methodText : Option String → String
  | some m => m
  | none => "None"

/-- Python `repr` quote character (codepoint 39), as produced by
`str(KeyError(key))`. -/
def pyQuote : String := String.singleton (Char.ofNat 39)

/-- Python `str(ke)` for `KeyError(key)`: the key wrapped in repr quotes. -/
def keyErrorText (k : String) : String := pyQuote ++ k ++ pyQuote

/-- `params[k]` on the params mapping: the value, or a raised `KeyError(k)`. -/
def getParam (params : List (String × JVal)) (k : String) : Except Err JVal :=
  match params.lookup k with
  | some v => .ok v
  | none => .error (.keyErr k)

/-- `params.get("index", 1)` (src/server.py:118). -/
def getIndexParam (params : List (String × JVal)) : JVal :=
  match params.lookup "index" with
  | some v => v
  | none => .num 1

/-- The `try:` block of `mcp_endpoint` (src/server.py:111-122): route the
method, looking up required params by exact key in argument order; an unknown
method raises `HTTPException(400, f"Unknown method {method}")`. -/
def dispatch (env : Env) (req : RpcRequest) : OpOut :=
  if req.method = some "list_docs" then
    list_docs env
  else if req.method = some "get_doc" then
    match getParam req.params "documentId" with
    | .error e => ⟨.error e, [], env.store⟩
    | .ok document_id => get_doc env document_id
  else if req.method = some "insert_text" then
    match getParam req.params "documentId" with
    | .error e => ⟨.error e, [], env.store⟩
    | .ok document_id =>
      match getParam req.params "text" with
      | .error e => ⟨.error e, [], env.store⟩
      | .ok text => insert_text env document_id text (getIndexParam req.params)
  else if req.method = some "format_range" then
    match getParam req.params "documentId" with
    | .error e => ⟨.error e, [], env.store⟩
    | .ok document_id =>
      match getParam req.params "start_index" with
      | .error e => ⟨.error e, [], env.store⟩
      | .ok start_index =>
        match getParam req.params "end_index" with
        | .error e => ⟨.error e, [], env.store⟩
        | .ok end_index =>
          match getParam req.params "format" with
          | .error e => ⟨.error e, [], env.store⟩
          | .ok format => format_range env document_id start_index end_index format
  else
    ⟨.error (.http 400 ("Unknown method " ++ methodText req.method)), [], env.store⟩

/-- `mcp_endpoint` (src/server.py:100-130): run the dispatch and frame the
outcome, converting each raised exception at this boundary — `KeyError` to a
400 `missing param` envelope, `HTTPException` to an envelope with its own
status, any other exception to a 500 envelope — always echoing the request id.
Also returns the remote calls issued and the final store contents. -/
def mcp_endpoint (env : Env) (req : RpcRequest) :
    RpcResponse × List RemoteCall × Option Credential :=
  let o := dispatch env req
  match o.result with
  | .ok r => (⟨200, req.id, some r, none⟩, o.calls, o.store)
  | .error (.keyErr k) =>
    (⟨400, req.id, none, some ("missing param: " ++ keyErrorText k)⟩, o.calls, o.store)
  | .error (.http s d) => (⟨s, req.id, none, some d⟩, o.calls, o.store)
  | .error (.exc m) => (⟨500, req.id, none, some m⟩, o.calls, o.store)

/-- `oauth2callback` (src/server.py:48-65): read the `code` query parameter
(Python truthiness: absent or empty fails), exchange it for a credential via
the OAuth flow (`flow.fetch_token`; a library failure propagates as a plain
exception), and persist the credential, overwriting any prior record. -/
def oauth2callback (store : Option Credential) (query : List (String × String))
    (fetchToken : String → Except String Credential) :
    Except Err String × Option Credential :=
  match query.lookup "code" with
  | none => (.error (.http 400 "No code in callback"), store)
  | some code =>
    if code = "" then
      (.error (.http 400 "No code in callback"), store)
    else
      match fetchToken code with
      | .error e => (.error (.exc e), store)
      | .ok creds => (.ok "Authorized. You can close this tab. Server ready.", some creds)

/-- Result shapes an adapter operation can produce: a value, a 401
`HTTPException` from credential loading, or a plain exception from a remote
call (or the unsupported-format branch). -/
def opResultShape (r : Except Err JVal) : Prop :=
  (∃ v, r = .ok v) ∨ (∃ d, r = .error (.http 401 d)) ∨ (∃ m, r = .error (.exc m))

/-- Result shapes the dispatch `try:` block can produce: additionally a 400
`HTTPException` (unknown method) and a `KeyError` (missing param). -/
def dispatchResultShape (r : Except Err JVal) : Prop :=
  (∃ v, r = .ok v) ∨ (∃ d, r = .error (.http 400 d)) ∨
  (∃ d, r = .error (.http 401 d)) ∨ (∃ k, r = .error (.keyErr k)) ∨
  (∃ m, r = .error (.exc m))

/-- The required params of each method, in the order the dispatcher looks
them up (src/server.py:115-120); `index` is optional with default 1. -/
def requiredKeys (m : String) : List String :=
  if m = "get_doc" then ["documentId"]
  else if m = "insert_text" then ["documentId", "text"]
  else if m = "format_range" then ["documentId", "start_index", "end_index", "format"]
  else []

/-- The first required key of method `m` missing from the params mapping:
the key whose `KeyError` the dispatcher raises. -/
def firstMissingKey (m : String) (params : List (String × JVal)) : Option String :=
  (requiredKeys m).find? fun k => (params.lookup k).isNone

/-- Every error produced by `load_creds` is an `HTTPException` with status 401
(either the no-stored-credential message or the refresh-failure message). -/
theorem load_creds_result_shape (store : Option Credential) (now : Nat)
    (refresh : Credential → Except String Credential) :
    (∃ c, (load_creds store now refresh).1 = .ok c) ∨
    (∃ d, (load_creds store now refresh).1 = .error (.http 401 d)) := by
  unfold load_creds
  rcases store with _ | c
  · exact Or.inr ⟨_, rfl⟩
  · dsimp only
    split
    · rcases href : refresh c with e | c'
      · simp [href]
      · simp [href]
    · exact Or.inl ⟨_, rfl⟩

/-- C1: when the stored credential is expired with a refresh token and the
refresh attempt fails, `load_creds` deletes the stored record and fails with
a 401 whose message carries the underlying error text; the store then holds
nothing, so the next `load_creds` call fails 401 via the
no-stored-credential branch. -/
theorem load_creds_refresh_failure_deletes_and_fails
    (store : Option Credential) (now : Nat)
    (refresh : Credential → Except String Credential)
    (c : Credential) (e : String)
    (hs : store = some c)
    (hexp : c.expired now = true)
    (hrt : c.hasRefreshToken = true)
    (href : refresh c = .error e) :
    load_creds store now refresh =
      (.error (.http 401 ("Failed to refresh credentials: " ++ e)), none) ∧
    load_creds (load_creds store now refresh).2 now refresh =
      (.error (.http 401 "User not authorized. Visit /authorize"), none) := by
  subst hs
  constructor
  · simp [load_creds, hexp, hrt, href]
  · simp [load_creds, hexp, hrt, href]

/-- C1 witness at a concrete expired credential and failing provider. -/
theorem load_creds_refresh_failure_deletes_and_fails_witness :
    load_creds (some ⟨"at", some "rt", some 5, []⟩) 10 (fun _ => .error "boom") =
      (.error (.http 401 ("Failed to refresh credentials: " ++ "boom")), none) ∧
    load_creds
        (load_creds (some ⟨"at", some "rt", some 5, []⟩) 10 (fun _ => .error "boom")).2
        10 (fun _ => .error "boom") =
      (.error (.http 401 "User not authorized. Visit /authorize"), none) :=
  load_creds_refresh_failure_deletes_and_fails
    (some ⟨"at", some "rt", some 5, []⟩) 10 (fun _ => .error "boom")
    ⟨"at", some "rt", some 5, []⟩ "boom" rfl (by decide) (by decide) rfl

/-- C2: when the stored credential is expired with a refresh token and the
refresh succeeds with a record whose expiry differs and is not yet past,
`load_creds` returns the refreshed record (not the original) and persists it;
reloading from the updated store yields the refreshed value again. -/
theorem load_creds_refresh_success_roundtrip
    (store : Option Credential) (now : Nat)
    (refresh : Credential → Except String Credential)
    (c c' : Credential)
    (hs : store = some c)
    (hexp : c.expired now = true)
    (hrt : c.hasRefreshToken = true)
    (href : refresh c = .ok c')
    (hexpiry : c'.expiry ≠ c.expiry)
    (hfresh : c'.expired now = false) :
    load_creds store now refresh = (.ok c', some c') ∧
    (load_creds store now refresh).1 ≠ .ok c ∧
    load_creds (load_creds store now refresh).2 now refresh = (.ok c', some c') := by
  subst hs
  have hne : c' ≠ c := fun h => hexpiry (by rw [h])
  have h1 : load_creds (some c) now refresh = (.ok c', some c') := by
    simp [load_creds, hexp, hrt, href]
  refine ⟨h1, ?_, ?_⟩
  · rw [h1]
    simp [hne]
  · rw [h1]
    simp [load_creds, hfresh]

/-- C2 witness: concrete expired credential refreshed to a later expiry. -/
theorem load_creds_refresh_success_roundtrip_witness :
    load_creds (some ⟨"at", some "rt", some 5, []⟩) 10
        (fun _ => .ok ⟨"at2", some "rt", some 100, []⟩) =
      (.ok ⟨"at2", some "rt", some 100, []⟩, some ⟨"at2", some "rt", some 100, []⟩) ∧
    (load_creds (some ⟨"at", some "rt", some 5, []⟩) 10
        (fun _ => .ok ⟨"at2", some "rt", some 100, []⟩)).1 ≠
      .ok ⟨"at", some "rt", some 5, []⟩ ∧
    load_creds
        (load_creds (some ⟨"at", some "rt", some 5, []⟩) 10
          (fun _ => .ok ⟨"at2", some "rt", some 100, []⟩)).2 10
        (fun _ => .ok ⟨"at2", some "rt", some 100, []⟩) =
      (.ok ⟨"at2", some "rt", some 100, []⟩, some ⟨"at2", some "rt", some 100, []⟩) :=
  load_creds_refresh_success_roundtrip
    (some ⟨"at", some "rt", some 5, []⟩) 10
    (fun _ => .ok ⟨"at2", some "rt", some 100, []⟩)
    ⟨"at", some "rt", some 5, []⟩ ⟨"at2", some "rt", some 100, []⟩
    rfl (by decide) (by decide) rfl (by decide) (by decide)

/-- C3 counterexample: an expired record lacking a refresh token is returned
unchanged by `load_creds`, with the store untouched — the call neither fails
nor removes the record, contrary to the claim. -/
theorem load_creds_terminal_record_counterexample :
    Credential.expired ⟨"at", none, some 5, []⟩ 10 = true ∧
    Credential.refresh_token ⟨"at", none, some 5, []⟩ = none ∧
    load_creds (some ⟨"at", none, some 5, []⟩) 10 (fun _ => .error "unused") =
      (.ok ⟨"at", none, some 5, []⟩, some ⟨"at", none, some 5, []⟩) :=
  ⟨by decide, rfl, rfl⟩

/-- C3 amended: `load_creds` returns an expired record that lacks a
refresh token unchanged, leaving the store unchanged; no refresh is attempted
(the outcome does not depend on the provider's refresh behaviour). -/
theorem load_creds_terminal_record_returned_unchanged
    (store : Option Credential) (now : Nat)
    (refresh : Credential → Except String Credential)
    (c : Credential)
    (hs : store = some c)
    (hexp : c.expired now = true)
    (hrt : c.refresh_token = none) :
    load_creds store now refresh = (.ok c, some c) := by
  subst hs
  simp [load_creds, Credential.hasRefreshToken, hrt]

/-- C3 amended witness at a concrete expired, refresh-token-free record. -/
theorem load_creds_terminal_record_returned_unchanged_witness :
    load_creds (some ⟨"at", none, some 5, []⟩) 10 (fun _ => .error "unused") =
      (.ok ⟨"at", none, some 5, []⟩, some ⟨"at", none, some 5, []⟩) :=
  load_creds_terminal_record_returned_unchanged
    (some ⟨"at", none, some 5, []⟩) 10 (fun _ => .error "unused")
    ⟨"at", none, some 5, []⟩ rfl (by decide) rfl

/-- C9: a callback request whose query string has no `code` parameter gets
HTTP 400 (`No code in callback`) and the stored credential state is
unchanged — no record is written. -/
theorem oauth2callback_no_code_400_no_write
    (store : Option Credential) (query : List (String × String))
    (fetchToken : String → Except String Credential)
    (h : query.lookup "code" = none) :
    oauth2callback store query fetchToken =
      (.error (.http 400 "No code in callback"), store) := by
  simp [oauth2callback, h]

/-- C9 witness: a concrete query without `code`, store left as it was. -/
theorem oauth2callback_no_code_400_no_write_witness :
    oauth2callback (some ⟨"at", some "rt", some 5, []⟩) [("state", "xyz")]
        (fun _ => .ok ⟨"new", none, none, []⟩) =
      (.error (.http 400 "No code in callback"), some ⟨"at", some "rt", some 5, []⟩) :=
  oauth2callback_no_code_400_no_write
    (some ⟨"at", some "rt", some 5, []⟩) [("state", "xyz")]
    (fun _ => .ok ⟨"new", none, none, []⟩) rfl

/-- C10: in `format_range`, credential acquisition precedes format
validation: with no stored credential the call fails 401 for every format
value (including unsupported ones) and issues no remote call; and whenever
the unsupported-format exception is raised, credential loading had
succeeded. -/
theorem format_range_credentials_before_format_check
    (env : Env) (document_id start_index end_index format : JVal) :
    (env.store = none →
      format_range env document_id start_index end_index format =
        ⟨.error (.http 401 "User not authorized. Visit /authorize"), [], none⟩) ∧
    ((format_range env document_id start_index end_index format).result =
        .error (.exc "unsupported format") →
      ∃ c, (load_creds env.store env.now env.refresh).1 = .ok c) := by
  constructor
  · intro hstore
    unfold format_range
    rw [show load_creds env.store env.now env.refresh =
        (.error (.http 401 "User not authorized. Visit /authorize"), none) by
      rw [hstore]; rfl]
  · intro hres
    rcases load_creds_result_shape env.store env.now env.refresh with ⟨c, hc⟩ | ⟨d, hd⟩
    · exact ⟨c, hc⟩
    · exfalso
      unfold format_range at hres
      rcases hlc : load_creds env.store env.now env.refresh with ⟨r, st⟩
      rw [hlc] at hres hd
      simp only at hd
      subst hd
      simp at hres
  
/-- C10 witness: empty store, unsupported format, concrete environment. -/
theorem format_range_credentials_before_format_check_witness :
    (format_range
        ⟨none, 0, fun _ => .error "e", .error "e", fun _ => .error "e",
          fun _ _ => .error "e"⟩
        (.str "doc") (.num 1) (.num 2) (.str "underline") =
      ⟨.error (.http 401 "User not authorized. Visit /authorize"), [], none⟩) :=
  (format_range_credentials_before_format_check
    ⟨none, 0, fun _ => .error "e", .error "e", fun _ => .error "e",
      fun _ _ => .error "e"⟩
    (.str "doc") (.num 1) (.num 2) (.str "underline")).1 rfl

/-- C4 counterexample: with a valid credential stored, `format_range` with
format `underline` through `/mcp` yields HTTP 500 (the plain
`unsupported format` exception reaches the generic handler), not 400 —
though indeed no remote batch update is issued. -/
theorem format_range_underline_counterexample :
    (mcp_endpoint
        ⟨some ⟨"at", some "rt", some 100, []⟩, 10, fun _ => .error "e",
          .error "e", fun _ => .error "e", fun _ _ => .ok .null⟩
        ⟨some "format_range",
          [("documentId", .str "d"), ("start_index", .num 1),
           ("end_index", .num 2), ("format", .str "underline")], .str "42"⟩).1.status
      = 500 ∧
    ¬ (mcp_endpoint
        ⟨some ⟨"at", some "rt", some 100, []⟩, 10, fun _ => .error "e",
          .error "e", fun _ => .error "e", fun _ _ => .ok .null⟩
        ⟨some "format_range",
          [("documentId", .str "d"), ("start_index", .num 1),
           ("end_index", .num 2), ("format", .str "underline")], .str "42"⟩).1.status
      = 400 ∧
    (mcp_endpoint
        ⟨some ⟨"at", some "rt", some 100, []⟩, 10, fun _ => .error "e",
          .error "e", fun _ => .error "e", fun _ _ => .ok .null⟩
        ⟨some "format_range",
          [("documentId", .str "d"), ("start_index", .num 1),
           ("end_index", .num 2), ("format", .str "underline")], .str "42"⟩).2.1
      = [] := by
  refine ⟨rfl, by decide, rfl⟩

/-- C4 amended: with a loadable credential, `format_range` with a format
outside {bold, italic, heading1} raises the plain `unsupported format`
exception, issues no remote call, and the `/mcp` response carries HTTP
status 500 (Internal) with that message. -/
theorem format_range_unsupported_internal_500
    (env : Env) (document_id start_index end_index format idv : JVal)
    (c : Credential)
    (hcred : (load_creds env.store env.now env.refresh).1 = .ok c)
    (hb : format.isStr "bold" = false)
    (hi : format.isStr "italic" = false)
    (hh : format.isStr "heading1" = false) :
    (format_range env document_id start_index end_index format).result =
      .error (.exc "unsupported format") ∧
    (format_range env document_id start_index end_index format).calls = [] ∧
    (mcp_endpoint env ⟨some "format_range",
        [("documentId", document_id), ("start_index", start_index),
         ("end_index", end_index), ("format", format)], idv⟩).1.status = 500 ∧
    (mcp_endpoint env ⟨some "format_range",
        [("documentId", document_id), ("start_index", start_index),
         ("end_index", end_index), ("format", format)], idv⟩).1.errorMsg =
      some "unsupported format" ∧
    (mcp_endpoint env ⟨some "format_range",
        [("documentId", document_id), ("start_index", start_index),
         ("end_index", end_index), ("format", format)], idv⟩).2.1 = [] := by
  rcases hlc : load_creds env.store env.now env.refresh with ⟨r, st⟩
  rw [hlc] at hcred
  simp only at hcred
  subst hcred
  have hfr : format_range env document_id start_index end_index format =
      ⟨.error (.exc "unsupported format"), [], st⟩ := by
    unfold format_range
    rw [hlc]
    simp [hb, hi, hh]
  have hd : dispatch env ⟨some "format_range",
      [("documentId", document_id), ("start_index", start_index),
       ("end_index", end_index), ("format", format)], idv⟩ =
      format_range env document_id start_index end_index format := by
    simp [dispatch, getParam, List.lookup]
  refine ⟨by rw [hfr], by rw [hfr], ?_, ?_, ?_⟩ <;>
    simp [mcp_endpoint, hd, hfr]

/-- C4 amended witness: concrete authorized environment, format underline. -/
theorem format_range_unsupported_internal_500_witness :
    (format_range
        ⟨some ⟨"at", some "rt", some 100, []⟩, 10, fun _ => .error "e",
          .error "e", fun _ => .error "e", fun _ _ => .ok .null⟩
        (.str "d") (.num 1) (.num 2) (.str "underline")).result =
      .error (.exc "unsupported format") ∧
    (format_range
        ⟨some ⟨"at", some "rt", some 100, []⟩, 10, fun _ => .error "e",
          .error "e", fun _ => .error "e", fun _ _ => .ok .null⟩
        (.str "d") (.num 1) (.num 2) (.str "underline")).calls = [] ∧
    (mcp_endpoint
        ⟨some ⟨"at", some "rt", some 100, []⟩, 10, fun _ => .error "e",
          .error "e", fun _ => .error "e", fun _ _ => .ok .null⟩
        ⟨some "format_range",
          [("documentId", .str "d"), ("start_index", .num 1),
           ("end_index", .num 2), ("format", .str "underline")], .num 7⟩).1.status
      = 500 ∧
    (mcp_endpoint
        ⟨some ⟨"at", some "rt", some 100, []⟩, 10, fun _ => .error "e",
          .error "e", fun _ => .error "e", fun _ _ => .ok .null⟩
        ⟨some "format_range",
          [("documentId", .str "d"), ("start_index", .num 1),
           ("end_index", .num 2), ("format", .str "underline")], .num 7⟩).1.errorMsg
      = some "unsupported format" ∧
    (mcp_endpoint
        ⟨some ⟨"at", some "rt", some 100, []⟩, 10, fun _ => .error "e",
          .error "e", fun _ => .error "e", fun _ _ => .ok .null⟩
        ⟨some "format_range",
          [("documentId", .str "d"), ("start_index", .num 1),
           ("end_index", .num 2), ("format", .str "underline")], .num 7⟩).2.1
      = [] :=
  format_range_unsupported_internal_500
    ⟨some ⟨"at", some "rt", some 100, []⟩, 10, fun _ => .error "e",
      .error "e", fun _ => .error "e", fun _ _ => .ok .null⟩
    (.str "d") (.num 1) (.num 2) (.str "underline") (.num 7)
    ⟨"at", some "rt", some 100, []⟩ rfl rfl rfl rfl

/-- `batchUpdateAndWrap` always issues exactly its one batch-update call,
whether the remote call succeeds or fails. -/
theorem batchUpdateAndWrap_calls (env : Env) (st : Option Credential)
    (document_id : JVal) (requests : List JVal) :
    (batchUpdateAndWrap env st document_id requests).calls =
      [RemoteCall.batchUpdate document_id requests] := by
  unfold batchUpdateAndWrap
  cases henv : env.batchUpdate document_id requests <;> simp

/-- C8: with a loadable credential, `format_range` issues exactly one remote
batch update per call: for bold/italic an `updateTextStyle` whose `textStyle`
sets exactly that one boolean field and whose `fields` string lists only that
field, over the range `[start_index, end_index)`; for heading1 an
`updateParagraphStyle` setting `namedStyleType` to `HEADING_1` over that
range. -/
theorem format_range_request_shapes
    (env : Env) (document_id start_index end_index : JVal) (c : Credential)
    (hcred : (load_creds env.store env.now env.refresh).1 = .ok c) :
    (format_range env document_id start_index end_index (.str "bold")).calls =
      [RemoteCall.batchUpdate document_id
        [.obj [("updateTextStyle", .obj
          [("range", .obj [("startIndex", start_index), ("endIndex", end_index)]),
           ("textStyle", .obj [("bold", .bool true)]),
           ("fields", .str "bold")])]]] ∧
    (format_range env document_id start_index end_index (.str "italic")).calls =
      [RemoteCall.batchUpdate document_id
        [.obj [("updateTextStyle", .obj
          [("range", .obj [("startIndex", start_index), ("endIndex", end_index)]),
           ("textStyle", .obj [("italic", .bool true)]),
           ("fields", .str "italic")])]]] ∧
    (format_range env document_id start_index end_index (.str "heading1")).calls =
      [RemoteCall.batchUpdate document_id
        [.obj [("updateParagraphStyle", .obj
          [("range", .obj [("startIndex", start_index), ("endIndex", end_index)]),
           ("paragraphStyle", .obj [("namedStyleType", .str "HEADING_1")]),
           ("fields", .str "namedStyleType")])]]] := by
  rcases hlc : load_creds env.store env.now env.refresh with ⟨r, st⟩
  rw [hlc] at hcred
  simp only at hcred
  subst hcred
  refine ⟨?_, ?_, ?_⟩ <;>
    (unfold format_range
     rw [hlc]
     simp [batchUpdateAndWrap_calls, textStyleRequest, paragraphStyleRequest,
       JVal.isStr, String.intercalate]
     try rfl)

/-- C8 witness: concrete authorized environment and concrete range. -/
theorem format_range_request_shapes_witness :
    (format_range
        ⟨some ⟨"at", some "rt", some 100, []⟩, 10, fun _ => .error "e",
          .error "e", fun _ => .error "e", fun _ _ => .ok .null⟩
        (.str "d") (.num 1) (.num 2) (.str "bold")).calls =
      [RemoteCall.batchUpdate (.str "d")
        [.obj [("updateTextStyle", .obj
          [("range", .obj [("startIndex", .num 1), ("endIndex", .num 2)]),
           ("textStyle", .obj [("bold", .bool true)]),
           ("fields", .str "bold")])]]] ∧
    (format_range
        ⟨some ⟨"at", some "rt", some 100, []⟩, 10, fun _ => .error "e",
          .error "e", fun _ => .error "e", fun _ _ => .ok .null⟩
        (.str "d") (.num 1) (.num 2) (.str "italic")).calls =
      [RemoteCall.batchUpdate (.str "d")
        [.obj [("updateTextStyle", .obj
          [("range", .obj [("startIndex", .num 1), ("endIndex", .num 2)]),
           ("textStyle", .obj [("italic", .bool true)]),
           ("fields", .str "italic")])]]] ∧
    (format_range
        ⟨some ⟨"at", some "rt", some 100, []⟩, 10, fun _ => .error "e",
          .error "e", fun _ => .error "e", fun _ _ => .ok .null⟩
        (.str "d") (.num 1) (.num 2) (.str "heading1")).calls =
      [RemoteCall.batchUpdate (.str "d")
        [.obj [("updateParagraphStyle", .obj
          [("range", .obj [("startIndex", .num 1), ("endIndex", .num 2)]),
           ("paragraphStyle", .obj [("namedStyleType", .str "HEADING_1")]),
           ("fields", .str "namedStyleType")])]]] :=
  format_range_request_shapes
    ⟨some ⟨"at", some "rt", some 100, []⟩, 10, fun _ => .error "e",
      .error "e", fun _ => .error "e", fun _ _ => .ok .null⟩
    (.str "d") (.num 1) (.num 2) ⟨"at", some "rt", some 100, []⟩ rfl

/-- `batchUpdateAndWrap` yields a value or a plain remote-call exception. -/
theorem batchUpdateAndWrap_shape (env : Env) (st : Option Credential)
    (document_id : JVal) (requests : List JVal) :
    opResultShape (batchUpdateAndWrap env st document_id requests).result := by
  unfold batchUpdateAndWrap
  cases henv : env.batchUpdate document_id requests
  · exact Or.inr (Or.inr ⟨_, rfl⟩)
  · exact Or.inl ⟨_, rfl⟩

/-- `list_docs` produces only the adapter result shapes. -/
theorem list_docs_shape (env : Env) : opResultShape (list_docs env).result := by
  unfold list_docs
  rcases load_creds_result_shape env.store env.now env.refresh with ⟨c, hc⟩ | ⟨d, hd⟩ <;>
    rcases hlc : load_creds env.store env.now env.refresh with ⟨r, st⟩
  · rw [hlc] at hc
    simp only at hc
    subst hc
    dsimp only
    cases henv : env.filesList
    · exact Or.inr (Or.inr ⟨_, rfl⟩)
    · exact Or.inl ⟨_, rfl⟩
  · rw [hlc] at hd
    simp only at hd
    subst hd
    exact Or.inr (Or.inl ⟨_, rfl⟩)

/-- `get_doc` produces only the adapter result shapes. -/
theorem get_doc_shape (env : Env) (document_id : JVal) :
    opResultShape (get_doc env document_id).result := by
  unfold get_doc
  rcases load_creds_result_shape env.store env.now env.refresh with ⟨c, hc⟩ | ⟨d, hd⟩ <;>
    rcases hlc : load_creds env.store env.now env.refresh with ⟨r, st⟩
  · rw [hlc] at hc
    simp only at hc
    subst hc
    dsimp only
    cases henv : env.documentsGet document_id
    · exact Or.inr (Or.inr ⟨_, rfl⟩)
    · exact Or.inl ⟨_, rfl⟩
  · rw [hlc] at hd
    simp only at hd
    subst hd
    exact Or.inr (Or.inl ⟨_, rfl⟩)

/-- `insert_text` produces only the adapter result shapes. -/
theorem insert_text_shape (env : Env) (document_id text index : JVal) :
    opResultShape (insert_text env document_id text index).result := by
  unfold insert_text
  rcases load_creds_result_shape env.store env.now env.refresh with ⟨c, hc⟩ | ⟨d, hd⟩ <;>
    rcases hlc : load_creds env.store env.now env.refresh with ⟨r, st⟩
  · rw [hlc] at hc
    simp only at hc
    subst hc
    dsimp only
    cases henv : env.batchUpdate document_id
        [.obj [("insertText", .obj [("location", .obj [("index", index)]), ("text", text)])]]
    · exact Or.inr (Or.inr ⟨_, rfl⟩)
    · exact Or.inl ⟨_, rfl⟩
  · rw [hlc] at hd
    simp only at hd
    subst hd
    exact Or.inr (Or.inl ⟨_, rfl⟩)

/-- `format_range` produces only the adapter result shapes. -/
theorem format_range_shape (env : Env) (document_id start_index end_index format : JVal) :
    opResultShape (format_range env document_id start_index end_index format).result := by
  unfold format_range
  rcases load_creds_result_shape env.store env.now env.refresh with ⟨c, hc⟩ | ⟨d, hd⟩ <;>
    rcases hlc : load_creds env.store env.now env.refresh with ⟨r, st⟩
  · rw [hlc] at hc
    simp only at hc
    subst hc
    dsimp only
    split
    · exact batchUpdateAndWrap_shape env st document_id _
    · split
      · exact batchUpdateAndWrap_shape env st document_id _
      · split
        · exact batchUpdateAndWrap_shape env st document_id _
        · exact Or.inr (Or.inr ⟨_, rfl⟩)
  · rw [hlc] at hd
    simp only at hd
    subst hd
    exact Or.inr (Or.inl ⟨_, rfl⟩)

/-- An adapter result shape is also a dispatch result shape. -/
theorem opResultShape_dispatchResultShape (r : Except Err JVal)
    (h : opResultShape r) : dispatchResultShape r := by
  rcases h with ⟨v, hv⟩ | ⟨d, hd⟩ | ⟨m, hm⟩
  · exact Or.inl ⟨v, hv⟩
  · exact Or.inr (Or.inr (Or.inl ⟨d, hd⟩))
  · exact Or.inr (Or.inr (Or.inr (Or.inr ⟨m, hm⟩)))

/-- A failing `getParam` raises exactly the `KeyError` of its key. -/
theorem getParam_error (params : List (String × JVal)) (k : String) (e : Err)
    (h : getParam params k = .error e) : e = .keyErr k := by
  unfold getParam at h
  cases hp : params.lookup k
  · rw [hp] at h
    simp only [Except.error.injEq] at h
    exact h.symm
  · rw [hp] at h
    simp at h

/-- The dispatch `try:` block produces only the dispatch result shapes; in
particular every `HTTPException` it raises carries status 400 or 401. -/
theorem dispatch_shape (env : Env) (req : RpcRequest) :
    dispatchResultShape (dispatch env req).result := by
  unfold dispatch
  split
  · exact opResultShape_dispatchResultShape _ (list_docs_shape env)
  · split
    · split
      · rename_i e heq
        rw [getParam_error _ _ _ heq]
        exact Or.inr (Or.inr (Or.inr (Or.inl ⟨_, rfl⟩)))
      · exact opResultShape_dispatchResultShape _ (get_doc_shape env _)
    · split
      · split
        · rename_i e heq
          rw [getParam_error _ _ _ heq]
          exact Or.inr (Or.inr (Or.inr (Or.inl ⟨_, rfl⟩)))
        · split
          · rename_i e heq
            rw [getParam_error _ _ _ heq]
            exact Or.inr (Or.inr (Or.inr (Or.inl ⟨_, rfl⟩)))
          · exact opResultShape_dispatchResultShape _ (insert_text_shape env _ _ _)
      · split
        · split
          · rename_i e heq
            rw [getParam_error _ _ _ heq]
            exact Or.inr (Or.inr (Or.inr (Or.inl ⟨_, rfl⟩)))
          · split
            · rename_i e heq
              rw [getParam_error _ _ _ heq]
              exact Or.inr (Or.inr (Or.inr (Or.inl ⟨_, rfl⟩)))
            · split
              · rename_i e heq
                rw [getParam_error _ _ _ heq]
                exact Or.inr (Or.inr (Or.inr (Or.inl ⟨_, rfl⟩)))
              · split
                · rename_i e heq
                  rw [getParam_error _ _ _ heq]
                  exact Or.inr (Or.inr (Or.inr (Or.inl ⟨_, rfl⟩)))
                · exact opResultShape_dispatchResultShape _
                    (format_range_shape env _ _ _ _)
        · exact Or.inr (Or.inl ⟨_, rfl⟩)

/-- Framing of a successful dispatch: status 200, result present. -/
theorem mcp_endpoint_frames_ok (env : Env) (req : RpcRequest) (v : JVal)
    (h : (dispatch env req).result = .ok v) :
    (mcp_endpoint env req).1 = ⟨200, req.id, some v, none⟩ := by
  simp [mcp_endpoint, h]

/-- Framing of a raised `HTTPException`: its own status, its detail. -/
theorem mcp_endpoint_frames_http (env : Env) (req : RpcRequest) (s : Nat) (d : String)
    (h : (dispatch env req).result = .error (.http s d)) :
    (mcp_endpoint env req).1 = ⟨s, req.id, none, some d⟩ := by
  simp [mcp_endpoint, h]

/-- Framing of a raised `KeyError`: status 400, `missing param` message. -/
theorem mcp_endpoint_frames_keyErr (env : Env) (req : RpcRequest) (k : String)
    (h : (dispatch env req).result = .error (.keyErr k)) :
    (mcp_endpoint env req).1 = ⟨400, req.id, none, some ("missing param: " ++ keyErrorText k)⟩ := by
  simp [mcp_endpoint, h]

/-- Framing of any other raised exception: status 500, its message. -/
theorem mcp_endpoint_frames_exc (env : Env) (req : RpcRequest) (m : String)
    (h : (dispatch env req).result = .error (.exc m)) :
    (mcp_endpoint env req).1 = ⟨500, req.id, none, some m⟩ := by
  simp [mcp_endpoint, h]

/-- C5: every `/mcp` response echoes the request's id; every dispatch outcome
is framed at the boundary into a response whose status is one of 200, 400,
401, 500; raised `HTTPException`s keep their own status code and detail,
`KeyError`s become 400, and any other exception becomes 500 — no request is
left unanswered. -/
theorem mcp_endpoint_catches_all_errors (env : Env) (req : RpcRequest) :
    (mcp_endpoint env req).1.id = req.id ∧
    ((mcp_endpoint env req).1.status = 200 ∨ (mcp_endpoint env req).1.status = 400 ∨
     (mcp_endpoint env req).1.status = 401 ∨ (mcp_endpoint env req).1.status = 500) ∧
    (∀ s d, (dispatch env req).result = .error (.http s d) →
      (mcp_endpoint env req).1.status = s ∧
      (mcp_endpoint env req).1.errorMsg = some d) ∧
    (∀ k, (dispatch env req).result = .error (.keyErr k) →
      (mcp_endpoint env req).1.status = 400) ∧
    (∀ m, (dispatch env req).result = .error (.exc m) →
      (mcp_endpoint env req).1.status = 500) := by
  refine ⟨?_, ?_, ?_, ?_, ?_⟩
  · rcases dispatch_shape env req with ⟨v, h⟩ | ⟨d, h⟩ | ⟨d, h⟩ | ⟨k, h⟩ | ⟨m, h⟩
    · rw [mcp_endpoint_frames_ok env req v h]
    · rw [mcp_endpoint_frames_http env req 400 d h]
    · rw [mcp_endpoint_frames_http env req 401 d h]
    · rw [mcp_endpoint_frames_keyErr env req k h]
    · rw [mcp_endpoint_frames_exc env req m h]
  · rcases dispatch_shape env req with ⟨v, h⟩ | ⟨d, h⟩ | ⟨d, h⟩ | ⟨k, h⟩ | ⟨m, h⟩
    · rw [mcp_endpoint_frames_ok env req v h]; exact Or.inl rfl
    · rw [mcp_endpoint_frames_http env req 400 d h]; exact Or.inr (Or.inl rfl)
    · rw [mcp_endpoint_frames_http env req 401 d h]; exact Or.inr (Or.inr (Or.inl rfl))
    · rw [mcp_endpoint_frames_keyErr env req k h]; exact Or.inr (Or.inl rfl)
    · rw [mcp_endpoint_frames_exc env req m h]; exact Or.inr (Or.inr (Or.inr rfl))
  · intro s d h
    rw [mcp_endpoint_frames_http env req s d h]
    exact ⟨rfl, rfl⟩
  · intro k h
    rw [mcp_endpoint_frames_keyErr env req k h]
  · intro m h
    rw [mcp_endpoint_frames_exc env req m h]

/-- C5 witness: a concrete request (unknown method, empty store) whose
response echoes the id and is framed as a 400 error. -/
theorem mcp_endpoint_catches_all_errors_witness :
    (mcp_endpoint
        ⟨none, 0, fun _ => .error "e", .error "e", fun _ => .error "e",
          fun _ _ => .error "e"⟩
        ⟨some "frobnicate", [], .str "abc"⟩).1.id = .str "abc" ∧
    (mcp_endpoint
        ⟨none, 0, fun _ => .error "e", .error "e", fun _ => .error "e",
          fun _ _ => .error "e"⟩
        ⟨some "frobnicate", [], .str "abc"⟩).1.status = 400 :=
  ⟨(mcp_endpoint_catches_all_errors
      ⟨none, 0, fun _ => .error "e", .error "e", fun _ => .error "e",
        fun _ _ => .error "e"⟩
      ⟨some "frobnicate", [], .str "abc"⟩).1,
   ((mcp_endpoint_catches_all_errors
      ⟨none, 0, fun _ => .error "e", .error "e", fun _ => .error "e",
        fun _ _ => .error "e"⟩
      ⟨some "frobnicate", [], .str "abc"⟩).2.2.1 400 "Unknown method frobnicate" rfl).1⟩

/-- C6: a request whose method is none of list_docs, get_doc, insert_text,
format_range gets HTTP 400 with an error message containing (indeed equal to
`Unknown method ` followed by) the method name. -/
theorem mcp_unknown_method_400 (env : Env) (req : RpcRequest) (m : String)
    (hm : req.method = some m)
    (h1 : m ≠ "list_docs") (h2 : m ≠ "get_doc")
    (h3 : m ≠ "insert_text") (h4 : m ≠ "format_range") :
    (mcp_endpoint env req).1.status = 400 ∧
    (mcp_endpoint env req).1.errorMsg = some ("Unknown method " ++ m) := by
  have hd : (dispatch env req).result = .error (.http 400 ("Unknown method " ++ m)) := by
    unfold dispatch
    rw [hm]
    simp [h1, h2, h3, h4, methodText]
  rw [mcp_endpoint_frames_http env req 400 ("Unknown method " ++ m) hd]
  exact ⟨rfl, rfl⟩

/-- C6 witness at a concrete unknown method name. -/
theorem mcp_unknown_method_400_witness :
    (mcp_endpoint
        ⟨none, 0, fun _ => .error "e", .error "e", fun _ => .error "e",
          fun _ _ => .error "e"⟩
        ⟨some "delete_doc", [("documentId", .str "d")], .num 3⟩).1.status = 400 ∧
    (mcp_endpoint
        ⟨none, 0, fun _ => .error "e", .error "e", fun _ => .error "e",
          fun _ _ => .error "e"⟩
        ⟨some "delete_doc", [("documentId", .str "d")], .num 3⟩).1.errorMsg =
      some ("Unknown method " ++ "delete_doc") :=
  mcp_unknown_method_400
    ⟨none, 0, fun _ => .error "e", .error "e", fun _ => .error "e",
      fun _ _ => .error "e"⟩
    ⟨some "delete_doc", [("documentId", .str "d")], .num 3⟩ "delete_doc"
    rfl (by decide) (by decide) (by decide) (by decide)

/-- C7: a request naming a known method whose params mapping lacks a required
key gets HTTP 400 with an error message naming the (first) missing key, in
Python `KeyError` repr form. -/
theorem mcp_missing_param_400 (env : Env) (req : RpcRequest) (m k : String)
    (hm : req.method = some m)
    (hknown : m = "get_doc" ∨ m = "insert_text" ∨ m = "format_range")
    (hmiss : firstMissingKey m req.params = some k) :
    (mcp_endpoint env req).1.status = 400 ∧
    (mcp_endpoint env req).1.errorMsg =
      some ("missing param: " ++ keyErrorText k) := by
  have frame : (dispatch env req).result = .error (.keyErr k) →
      (mcp_endpoint env req).1.status = 400 ∧
      (mcp_endpoint env req).1.errorMsg =
        some ("missing param: " ++ keyErrorText k) := by
    intro hd
    rw [mcp_endpoint_frames_keyErr env req k hd]
    exact ⟨rfl, rfl⟩
  rcases hknown with hk | hk | hk <;> subst hk
  · cases hd1 : req.params.lookup "documentId"
    · simp [firstMissingKey, requiredKeys, List.find?, hd1] at hmiss
      subst hmiss
      refine frame ?_
      unfold dispatch
      rw [hm]
      simp [getParam, hd1]
    · simp [firstMissingKey, requiredKeys, List.find?, hd1] at hmiss
  · cases hd1 : req.params.lookup "documentId"
    · simp [firstMissingKey, requiredKeys, List.find?, hd1] at hmiss
      subst hmiss
      refine frame ?_
      unfold dispatch
      rw [hm]
      simp [getParam, hd1]
    · cases hd2 : req.params.lookup "text"
      · simp [firstMissingKey, requiredKeys, List.find?, hd1, hd2] at hmiss
        subst hmiss
        refine frame ?_
        unfold dispatch
        rw [hm]
        simp [getParam, hd1, hd2]
      · simp [firstMissingKey, requiredKeys, List.find?, hd1, hd2] at hmiss
  · cases hd1 : req.params.lookup "documentId"
    · simp [firstMissingKey, requiredKeys, List.find?, hd1] at hmiss
      subst hmiss
      refine frame ?_
      unfold dispatch
      rw [hm]
      simp [getParam, hd1]
    · cases hd2 : req.params.lookup "start_index"
      · simp [firstMissingKey, requiredKeys, List.find?, hd1, hd2] at hmiss
        subst hmiss
        refine frame ?_
        unfold dispatch
        rw [hm]
        simp [getParam, hd1, hd2]
      · cases hd3 : req.params.lookup "end_index"
        · simp [firstMissingKey, requiredKeys, List.find?, hd1, hd2, hd3] at hmiss
          subst hmiss
          refine frame ?_
          unfold dispatch
          rw [hm]
          simp [getParam, hd1, hd2, hd3]
        · cases hd4 : req.params.lookup "format"
          · simp [firstMissingKey, requiredKeys, List.find?, hd1, hd2, hd3, hd4] at hmiss
            subst hmiss
            refine frame ?_
            unfold dispatch
            rw [hm]
            simp [getParam, hd1, hd2, hd3, hd4]
          · simp [firstMissingKey, requiredKeys, List.find?, hd1, hd2, hd3, hd4] at hmiss

/-- C7 witness: `get_doc` without `documentId` yields 400 naming the key. -/
theorem mcp_missing_param_400_witness :
    (mcp_endpoint
        ⟨none, 0, fun _ => .error "e", .error "e", fun _ => .error "e",
          fun _ _ => .error "e"⟩
        ⟨some "get_doc", [("docId", .str "oops")], .str "7"⟩).1.status = 400 ∧
    (mcp_endpoint
        ⟨none, 0, fun _ => .error "e", .error "e", fun _ => .error "e",
          fun _ _ => .error "e"⟩
        ⟨some "get_doc", [("docId", .str "oops")], .str "7"⟩).1.errorMsg =
      some ("missing param: " ++ keyErrorText "documentId") :=
  mcp_missing_param_400
    ⟨none, 0, fun _ => .error "e", .error "e", fun _ => .error "e",
      fun _ _ => .error "e"⟩
    ⟨some "get_doc", [("docId", .str "oops")], .str "7"⟩ "get_doc" "documentId"
    rfl (Or.inl rfl) rfl
